import Mathlib

/-!
Verification of the hardware-control core (`system_controls.py`).

The module controls Windows audio volume / mute and display brightness.
We give a shallow embedding:

* Python numeric-like values are modelled by `PyVal`; finite floats and ints
  become exact rationals (`ℚ`), `NaN` is an explicit constructor, strings are
  parsed by a model of Python's `float(str)` restricted to optionally signed
  decimal literals (the shapes the program can meet).
* The pure normalizers `_normalize_percent` / `_normalize_delta` become
  `normalize_percent` / `normalize_delta` returning `Except PyErr Int`
  (a raised `ValueError` becomes `.error`).
* Python's `round` (round-half-to-even, as `round(float)` behaves in
  Python 3) becomes `pyRound` on `ℚ`.
* The public volume / brightness operations become functions from an
  environment (whether the NirCmd helper executable is discoverable) and a
  hardware state to a result, a new hardware state and a trace of events
  (lock acquisition/release, helper invocations, native COM calls,
  PowerShell invocations).  OS-level calls are modelled on their
  specified success behaviour; validation failures are the `.error` branch.
* The COM plumbing `_with_audio_endpoint` is modelled separately and more
  finely, with injected HRESULTs for every fallible step, to settle the
  handle-release and apartment-lifecycle claims.
-/

/-- A Python value as it can reach the numeric API surface: a finite number
(int or float, as an exact rational), the float NaN, a string, `None`, or a
non-numeric object. -/
inductive PyVal where
  | num (q : ℚ)
  | nan
  | str (s : String)
  | none
  | obj
deriving DecidableEq

/-- Outcome of Python's `float(x)` conversion. -/
inductive FloatResult where
  | ok (q : ℚ)
  | nanVal
  | err
deriving DecidableEq

/-- Digits of a decimal literal as a natural number; `Option.none` when the
character list is empty or contains a non-digit. -/
def parseDigits (cs : List Char) : Option Nat :=
  if cs.isEmpty then Option.none
  else if cs.all Char.isDigit then
    Option.some (cs.foldl (fun a c => a * 10 + (c.toNat - 48)) 0)
  else Option.none

/-- Unsigned decimal literal `digits`, `digits.digits`, `digits.` or
`.digits`, as a pair (mantissa, number of fractional digits): the value is
`mantissa / 10 ^ fracLen`. -/
def parseUnsignedPair (cs : List Char) : Option (ℕ × ℕ) :=
  match cs.splitOn '.' with
  | [intPart] => (parseDigits intPart).map (fun n => (n, 0))
  | [intPart, fracPart] =>
      if intPart.isEmpty then
        (parseDigits fracPart).map (fun f => (f, fracPart.length))
      else if fracPart.isEmpty then
        (parseDigits intPart).map (fun n => (n, 0))
      else
        match parseDigits intPart, parseDigits fracPart with
        | Option.some i, Option.some f =>
            Option.some (i * 10 ^ fracPart.length + f, fracPart.length)
        | _, _ => Option.none
  | _ => Option.none

/-- Optionally signed decimal literal, as (signed mantissa, fractional
digit count). -/
def parseSigned (cs : List Char) : Option (ℤ × ℕ) :=
  match cs with
  | '-' :: rest => (parseUnsignedPair rest).map (fun p => (-(p.1 : ℤ), p.2))
  | '+' :: rest => (parseUnsignedPair rest).map (fun p => ((p.1 : ℤ), p.2))
  | _ => (parseUnsignedPair cs).map (fun p => ((p.1 : ℤ), p.2))

/-- ASCII whitespace, the characters `float(str)` ignores around a literal. -/
def isPySpace (c : Char) : Bool :=
  c = ' ' || c = '\t' || c = '\n' || c = '\r'

/-- Strip leading and trailing whitespace from a character list. -/
def stripList (cs : List Char) : List Char :=
  ((cs.dropWhile isPySpace).reverse.dropWhile isPySpace).reverse

/-- Model of Python `float(s)` on a string: strip surrounding whitespace,
optional sign, decimal literal.  (Exponent forms and the literals
`nan`/`inf` are outside the model; a string the model rejects is one the
conversion raises `ValueError` on.) -/
def parseNumericString (s : String) : Option ℚ :=
  (parseSigned (stripList s.toList)).map (fun p => (p.1 : ℚ) / (10 : ℚ) ^ p.2)

/-- Model of Python `float(x)`: numbers pass through, NaN stays NaN,
strings are parsed, `None` and non-numeric objects raise (`.err`). -/
def pyFloat (x : PyVal) : FloatResult :=
  match x with
  | .num q => .ok q
  | .nan => .nanVal
  | .str s =>
      match parseNumericString s with
      | Option.some q => .ok q
      | Option.none => .err
  | .none => .err
  | .obj => .err

/-- `x` would make `float(x)` raise, or is NaN: the inputs the normalizers
reject with a `ValueError`. -/
def isInvalidInput (x : PyVal) : Bool :=
  match pyFloat x with
  | .err => true
  | .nanVal => true
  | .ok _ => false

/-- Python 3 `round` on a finite float: nearest integer, ties to even. -/
def pyRound (q : ℚ) : ℤ :=
  if q - (⌊q⌋ : ℚ) < 1/2 then ⌊q⌋
  else if 1/2 < q - (⌊q⌋ : ℚ) then ⌊q⌋ + 1
  else if ⌊q⌋ % 2 = 0 then ⌊q⌋ else ⌊q⌋ + 1

/-- The one error kind the normalizers raise: Python `ValueError`. -/
inductive PyErr where
  | valueError (msg : String)
deriving DecidableEq

/-- `.error` test on the normalizers' result type. -/
def isError {α : Type} : Except PyErr α → Bool
  | .error _ => true
  | .ok _ => false

/-- Embedding of `_normalize_percent` (and its public alias
`normalize_percent`): convert with `float`, reject NaN, round and clamp to
`[0, 100]`. -/
def normalize_percent (x : PyVal) : Except PyErr ℤ :=
  match pyFloat x with
  | .err => .error (.valueError "El porcentaje debe ser un número.")
  | .nanVal => .error (.valueError "El porcentaje no puede ser NaN.")
  | .ok q => .ok (max 0 (min 100 (pyRound q)))

/-- Embedding of `_normalize_delta`: `None` yields the default untouched
(the `None` test precedes the `float` conversion); otherwise convert,
reject NaN, round and clamp to `[-100, 100]`. -/
def normalize_delta (x : PyVal) (default : ℤ) : Except PyErr ℤ :=
  match x with
  | .none => .ok default
  | _ =>
    match pyFloat x with
    | .err => .error (.valueError "El ajuste debe ser numérico.")
    | .nanVal => .error (.valueError "El ajuste no puede ser NaN.")
    | .ok q => .ok (max (-100) (min 100 (pyRound q)))

theorem pyRound_low {q : ℚ} {n : ℤ} (h1 : (n:ℚ) ≤ q) (h2 : q < (n:ℚ) + 1/2) :
    pyRound q = n := by
  have hf : ⌊q⌋ = n := Int.floor_eq_iff.mpr ⟨h1, by linarith⟩
  unfold pyRound
  rw [hf, if_pos (by linarith)]

theorem pyRound_high {q : ℚ} {n : ℤ} (h1 : (n:ℚ) + 1/2 < q) (h2 : q < (n:ℚ) + 1) :
    pyRound q = n + 1 := by
  have hf : ⌊q⌋ = n := Int.floor_eq_iff.mpr ⟨by linarith, h2⟩
  unfold pyRound
  rw [hf, if_neg (by linarith), if_pos (by linarith)]

theorem pyRound_intCast (n : ℤ) : pyRound (n:ℚ) = n :=
  pyRound_low (le_refl _) (by norm_num)

/-! ## The public-operation machine

`Env` is the probed environment: whether `_find_nircmd` discovers the
external helper executable.  `HwState` is the OS-owned hardware state the
operations read and mutate.  Each public operation maps an environment, a
state and its input to an `OpOut`: the Python-level result, the state after
the call, and the ordered trace of lock and OS-boundary events the call
performs.  OS calls are modelled on their success behaviour; the NirCmd
helper's effect on the hardware state is modelled from the spec (the helper
is an external tool, not part of the source): `setsysvolume s` sets the
master volume scalar to `s / 65535`, `changesysvolume s` adds `s / 65535`,
`mutesysvolume` sets the mute flag of the addressed device. -/

/-- Environment probe: result of `_find_nircmd` (helper discoverable?). -/
structure Env where
  nircmd : Bool
deriving DecidableEq

/-- OS-owned hardware state: master volume scalar in `[0,1]`, speaker and
microphone mute flags, display brightness percent. -/
structure HwState where
  volume : ℚ
  muted : Bool
  micMuted : Bool
  brightness : ℤ
deriving DecidableEq

/-- `EDataFlow` constants from the source. -/
def EDATAFLOW_RENDER : ℤ := 0

def EDATAFLOW_CAPTURE : ℤ := 1

/-- One observable step of a public operation: taking or releasing the
module lock, running the NirCmd helper with an argument list, a native COM
volume call, or a PowerShell brightness command. -/
inductive Event where
  | acquireLock
  | releaseLock
  | nircmdCmd (args : List String)
  | comGetVolume (flow : ℤ)
  | comSetVolume (flow : ℤ) (v : ℚ)
  | comSetMute (flow : ℤ) (m : Bool)
  | powershellCmd (percent : ℤ)
deriving DecidableEq

/-- Events that invoke the external helper. -/
def isHelperEvent : Event → Bool
  | .nircmdCmd _ => true
  | _ => false

/-- Events that touch the OS boundary (everything but the lock). -/
def isHwEvent : Event → Bool
  | .acquireLock => false
  | .releaseLock => false
  | _ => true

/-- Result, post-state and event trace of one public operation. -/
structure OpOut (α : Type) where
  result : Except PyErr α
  state : HwState
  trace : List Event

/-- Clamp a scalar into `[0,1]` (`max(0.0, min(1.0, v))`). -/
def clamp01 (q : ℚ) : ℚ := max 0 (min 1 q)

/-- Truncation toward zero, Python's `int(float)`. -/
def ratTrunc (q : ℚ) : ℤ := if 0 ≤ q then ⌊q⌋ else ⌈q⌉

/-- Embedding of `_volume_percent_to_step`: `int(percent / 100 * 65535)`. -/
def volume_percent_to_step (p : ℤ) : ℤ := ratTrunc ((p : ℚ) / 100 * 65535)

/-- Embedding of `get_volume`: reads the scalar through the native COM path
(no helper probe, no lock) and rounds to percent. -/
def get_volume (_env : Env) (st : HwState) : OpOut ℤ :=
  ⟨.ok (pyRound (st.volume * 100)), st, [.comGetVolume EDATAFLOW_RENDER]⟩

/-- Embedding of `set_volume`: normalize, then under the lock either run
`nircmd setsysvolume` (helper present) or set the scalar natively. -/
def set_volume (env : Env) (st : HwState) (x : PyVal) : OpOut ℤ :=
  match normalize_percent x with
  | .error e => ⟨.error e, st, []⟩
  | .ok v =>
      if env.nircmd then
        ⟨.ok v, { st with volume := clamp01 ((volume_percent_to_step v : ℚ) / 65535) },
         [.acquireLock, .nircmdCmd ["setsysvolume", toString (volume_percent_to_step v)],
          .releaseLock]⟩
      else
        ⟨.ok v, { st with volume := clamp01 ((v : ℚ) / 100) },
         [.acquireLock, .comSetVolume EDATAFLOW_RENDER (clamp01 ((v : ℚ) / 100)),
          .releaseLock]⟩

/-- Embedding of `set_brightness`: normalize, then under the lock either
run `nircmd setbrightness` or the PowerShell WMI command. -/
def set_brightness (env : Env) (st : HwState) (x : PyVal) : OpOut ℤ :=
  match normalize_percent x with
  | .error e => ⟨.error e, st, []⟩
  | .ok v =>
      if env.nircmd then
        ⟨.ok v, { st with brightness := v },
         [.acquireLock, .nircmdCmd ["setbrightness", toString v], .releaseLock]⟩
      else
        ⟨.ok v, { st with brightness := v },
         [.acquireLock, .powershellCmd v, .releaseLock]⟩

/-- Embedding of `volume_up`: normalize the delta (default 5), reject a
non-positive adjustment before taking the lock, then either
`nircmd changesysvolume step` followed by a native read-back, or
`_adjust_volume`(read scalar, add, clamp, write back). -/
def volume_up (env : Env) (st : HwState) (x : PyVal) : OpOut ℤ :=
  match normalize_delta x 5 with
  | .error e => ⟨.error e, st, []⟩
  | .ok a =>
      if a ≤ 0 then ⟨.error (.valueError "El incremento debe ser positivo."), st, []⟩
      else if env.nircmd then
        let s := volume_percent_to_step a
        let v1 := clamp01 (st.volume + (s : ℚ) / 65535)
        ⟨.ok (pyRound (v1 * 100)), { st with volume := v1 },
         [.acquireLock, .nircmdCmd ["changesysvolume", toString s],
          .comGetVolume EDATAFLOW_RENDER, .releaseLock]⟩
      else
        let v1 := clamp01 (st.volume + (a : ℚ) / 100)
        ⟨.ok (pyRound (v1 * 100)), { st with volume := v1 },
         [.acquireLock, .comGetVolume EDATAFLOW_RENDER,
          .comSetVolume EDATAFLOW_RENDER v1, .releaseLock]⟩

/-- Embedding of `volume_down`: as `volume_up` with the step negated
(`step = -_volume_percent_to_step(ajuste)`, or `_adjust_volume(-ajuste)`). -/
def volume_down (env : Env) (st : HwState) (x : PyVal) : OpOut ℤ :=
  match normalize_delta x 5 with
  | .error e => ⟨.error e, st, []⟩
  | .ok a =>
      if a ≤ 0 then ⟨.error (.valueError "El decremento debe ser positivo."), st, []⟩
      else if env.nircmd then
        let s := -(volume_percent_to_step a)
        let v1 := clamp01 (st.volume + (s : ℚ) / 65535)
        ⟨.ok (pyRound (v1 * 100)), { st with volume := v1 },
         [.acquireLock, .nircmdCmd ["changesysvolume", toString s],
          .comGetVolume EDATAFLOW_RENDER, .releaseLock]⟩
      else
        let v1 := clamp01 (st.volume + (-a : ℚ) / 100)
        ⟨.ok (pyRound (v1 * 100)), { st with volume := v1 },
         [.acquireLock, .comGetVolume EDATAFLOW_RENDER,
          .comSetVolume EDATAFLOW_RENDER v1, .releaseLock]⟩

/-- Embedding of `volume_mute`. -/
def volume_mute (env : Env) (st : HwState) : OpOut Unit :=
  ⟨.ok (), { st with muted := true },
   [.acquireLock,
    (if env.nircmd then .nircmdCmd ["mutesysvolume", "1"]
     else .comSetMute EDATAFLOW_RENDER true),
    .releaseLock]⟩

/-- Embedding of `volume_unmute`. -/
def volume_unmute (env : Env) (st : HwState) : OpOut Unit :=
  ⟨.ok (), { st with muted := false },
   [.acquireLock,
    (if env.nircmd then .nircmdCmd ["mutesysvolume", "0"]
     else .comSetMute EDATAFLOW_RENDER false),
    .releaseLock]⟩

/-- Embedding of `mic_mute` (capture role). -/
def mic_mute (env : Env) (st : HwState) : OpOut Unit :=
  ⟨.ok (), { st with micMuted := true },
   [.acquireLock,
    (if env.nircmd then .nircmdCmd ["mutesysvolume", "1", "microphone"]
     else .comSetMute EDATAFLOW_CAPTURE true),
    .releaseLock]⟩

/-- Embedding of `mic_unmute` (capture role). -/
def mic_unmute (env : Env) (st : HwState) : OpOut Unit :=
  ⟨.ok (), { st with micMuted := false },
   [.acquireLock,
    (if env.nircmd then .nircmdCmd ["mutesysvolume", "0", "microphone"]
     else .comSetMute EDATAFLOW_CAPTURE false),
    .releaseLock]⟩

/-- A trace that holds the module lock for the whole call: empty (the
operation returned before entering `with _lock`) or beginning with the
acquisition and ending with the release. -/
def coveredByLock (tr : List Event) : Bool :=
  tr.isEmpty ||
    (tr.head? == Option.some Event.acquireLock &&
     tr.getLast? == Option.some Event.releaseLock)

/-! ## Brightness read -/

/-- Captured outcome of the PowerShell subprocess `get_brightness` spawns. -/
structure SubprocResult where
  returncode : ℤ
  stdout : String
  stderr : String

/-- Model of Python `int(s)` on a string: strip whitespace, optional sign,
decimal digits; `Option.none` when the conversion raises `ValueError`. -/
def parsePyInt (cs : List Char) : Option ℤ :=
  match stripList cs with
  | '-' :: rest => (parseDigits rest).map (fun n => -(n : ℤ))
  | '+' :: rest => (parseDigits rest).map (fun n => (n : ℤ))
  | cs2 => (parseDigits cs2).map (fun n => (n : ℤ))

/-- Embedding of `get_brightness`: run the WMI query; a non-zero exit code
or unparsable stdout is logged and becomes `Option.none`, otherwise the
parsed integer is returned.  The function is total: no input raises. -/
def get_brightness (r : SubprocResult) : Option ℤ :=
  if r.returncode ≠ 0 then Option.none
  else
    match parsePyInt r.stdout.toList with
    | Option.some n => Option.some n
    | Option.none => Option.none

/-! ## The COM endpoint plumbing

`_with_audio_endpoint` is modelled with an injected HRESULT for each
fallible OS step (`CoInitializeEx`, `CoCreateInstance`, the
`GetDefaultAudioEndpoint` vtable call, the `Activate` vtable call) and an
injected callback outcome, so every exit path of the source — success,
early `raise` on a failed status code, exception from the callback — is one
valuation of `ComEnv`.  The trace records, in order, the OS calls made and
each `_release` of an acquired COM handle and each `CoUninitialize`. -/

/-- Injected outcomes for the fallible steps of one
`_with_audio_endpoint` call. -/
structure ComEnv where
  hrInit : ℤ
  hrCreate : ℤ
  hrGetDefault : ℤ
  hrActivate : ℤ
  cbResult : Except Unit (Option ℚ)

/-- Observable steps of `_with_audio_endpoint`. -/
inductive ComEvent where
  | coInit
  | coUninit
  | coCreateInstance
  | getDefaultEndpoint
  | activate
  | callbackRun
  | releaseEnumerator
  | releaseDevice
  | releaseEndpoint
deriving DecidableEq

/-- The failure each `raise` / propagated exception in
`_with_audio_endpoint` turns into. -/
inductive ComFailure where
  | initFailed
  | createFailed
  | deviceFailed
  | activateFailed
  | callbackRaised
deriving DecidableEq

/-- `RPC_E_CHANGED_MODE`, the one `CoInitializeEx` failure the source
tolerates (apartment already initialized in a different mode). -/
def RPC_E_CHANGED_MODE : ℤ := -2147417850

/-- Embedding of `_succeeded`: an HRESULT `≥ 0`. -/
def succeeded (hr : ℤ) : Prop := 0 ≤ hr

instance (hr : ℤ) : Decidable (succeeded hr) := Int.decLe 0 hr

/-- The teardown this call owes: `CoUninitialize` exactly when this call's
`CoInitializeEx` returned `S_OK` (0) or `S_FALSE` (1), i.e. when
`need_uninit` was set. -/
def uninitTail (env : ComEnv) : List ComEvent :=
  if env.hrInit = 0 ∨ env.hrInit = 1 then [.coUninit] else []

/-- Embedding of `_with_audio_endpoint`.  Mirrors the source's nested
`try/finally` structure: `need_uninit` is true exactly when `CoInitializeEx`
returned `S_OK` (0) or `S_FALSE` (1); `RPC_E_CHANGED_MODE` continues without
scheduling a teardown; any other failure raises before any handle exists.
Each successfully acquired handle (enumerator, device, endpoint-volume
interface) is released by its `finally` block, innermost first; the
`CoUninitialize` teardown runs in the outermost `finally` whenever
`need_uninit` is set, and on the create-failure path right before the
`raise`. -/
def with_audio_endpoint (env : ComEnv) : Except ComFailure (Option ℚ) × List ComEvent :=
  let tailU : List ComEvent := uninitTail env
  if env.hrInit = 0 ∨ env.hrInit = 1 ∨ env.hrInit = RPC_E_CHANGED_MODE then
    if succeeded env.hrCreate then
      if succeeded env.hrGetDefault then
        if succeeded env.hrActivate then
          match env.cbResult with
          | .ok v =>
              (.ok v,
               [.coInit, .coCreateInstance, .getDefaultEndpoint, .activate,
                .callbackRun, .releaseEndpoint, .releaseDevice,
                .releaseEnumerator] ++ tailU)
          | .error _ =>
              (.error .callbackRaised,
               [.coInit, .coCreateInstance, .getDefaultEndpoint, .activate,
                .callbackRun, .releaseEndpoint, .releaseDevice,
                .releaseEnumerator] ++ tailU)
        else
          (.error .activateFailed,
           [.coInit, .coCreateInstance, .getDefaultEndpoint, .activate,
            .releaseDevice, .releaseEnumerator] ++ tailU)
      else
        (.error .deviceFailed,
         [.coInit, .coCreateInstance, .getDefaultEndpoint,
          .releaseEnumerator] ++ tailU)
    else
      (.error .createFailed, [.coInit, .coCreateInstance] ++ tailU)
  else
    (.error .initFailed, [.coInit])

/-- The call proceeds past `CoInitializeEx` (success, `S_FALSE`, or the
tolerated `RPC_E_CHANGED_MODE`). -/
def initProceeds (env : ComEnv) : Prop :=
  env.hrInit = 0 ∨ env.hrInit = 1 ∨ env.hrInit = RPC_E_CHANGED_MODE

instance (env : ComEnv) : Decidable (initProceeds env) := by
  unfold initProceeds; infer_instance

/-- The enumerator handle was acquired during the call. -/
def enumAcquired (env : ComEnv) : Prop :=
  initProceeds env ∧ succeeded env.hrCreate

instance (env : ComEnv) : Decidable (enumAcquired env) := by
  unfold enumAcquired; infer_instance

/-- The device handle was acquired during the call. -/
def deviceAcquired (env : ComEnv) : Prop :=
  enumAcquired env ∧ succeeded env.hrGetDefault

instance (env : ComEnv) : Decidable (deviceAcquired env) := by
  unfold deviceAcquired; infer_instance

/-- The endpoint-volume interface handle was acquired during the call. -/
def endpointAcquired (env : ComEnv) : Prop :=
  deviceAcquired env ∧ succeeded env.hrActivate

instance (env : ComEnv) : Decidable (endpointAcquired env) := by
  unfold endpointAcquired; infer_instance

theorem pyRound_150 : pyRound (150:ℚ) = 150 := by
  have h := pyRound_intCast 150
  norm_num at h
  exact h

/-- Claim C1: for every input `x`, `normalizePercent(x)` rejects non-numeric
input and NaN with a Validation error, and otherwise returns `x` rounded to
the nearest integer and clamped to `[0, 100]`; in particular
`normalizePercent(150) == 100`, `normalizePercent(-20) == 0`,
`normalizePercent("80") == 80` and `normalizePercent(33.6) == 34`, while
`normalizePercent("abc")` and `normalizePercent(NaN)` raise. -/
theorem C1_normalize_percent_spec :
    (∀ x q, normalize_percent x = .ok q → 0 ≤ q ∧ q ≤ 100) ∧
    (∀ q : ℚ, normalize_percent (.num q) = .ok (max 0 (min 100 (pyRound q)))) ∧
    (∀ x, isInvalidInput x = true → isError (normalize_percent x) = true) ∧
    normalize_percent (.num 150) = .ok 100 ∧
    normalize_percent (.num (-20)) = .ok 0 ∧
    normalize_percent (.str "80") = .ok 80 ∧
    normalize_percent (.num (336/10)) = .ok 34 ∧
    isError (normalize_percent (.str "abc")) = true ∧
    isError (normalize_percent .nan) = true := by
  refine ⟨?_, ?_, ?_, ?_, ?_, ?_, ?_, ?_, ?_⟩
  · intro x q h
    unfold normalize_percent at h
    cases hx : pyFloat x <;> (rw [hx] at h; simp_all)
    subst h
    exact ⟨le_max_left _ _, max_le (by norm_num) (min_le_left _ _)⟩
  · intro q
    simp [normalize_percent, pyFloat]
  · intro x hx
    unfold isInvalidInput at hx
    unfold normalize_percent isError
    cases h : pyFloat x <;> rw [h] at hx <;> simp_all
  · simp [normalize_percent, pyFloat]
    rw [show ((150:ℚ)) = ((150:ℤ):ℚ) by norm_num, pyRound_intCast]
    decide
  · simp [normalize_percent, pyFloat]
    rw [show ((-20:ℚ)) = ((-20:ℤ):ℚ) by norm_num, pyRound_intCast]
    decide
  · have hp : parseSigned (stripList ['8', '0']) = Option.some (80, 0) := by decide
    simp [normalize_percent, pyFloat, parseNumericString, hp]
    rw [show ((80:ℚ)) = ((80:ℤ):ℚ) by norm_num, pyRound_intCast]
    decide
  · simp [normalize_percent, pyFloat]
    rw [show pyRound (336/10 : ℚ) = 34 from pyRound_high (n := 33) (by norm_num) (by norm_num)]
    decide
  · have hp : parseSigned (stripList ['a', 'b', 'c']) = Option.none := by decide
    simp [isError, normalize_percent, pyFloat, parseNumericString, hp]
  · simp [isError, normalize_percent, pyFloat]

theorem C1_witness : 0 ≤ (100:ℤ) ∧ (100:ℤ) ≤ 100 :=
  C1_normalize_percent_spec.1 (.num 150) 100 C1_normalize_percent_spec.2.2.2.1

/-- Claim C2 counterexample: `normalizeDelta(None, 500)` returns the default
`500` unclamped, so the claimed range `[-100, 100]` fails when the supplied
default itself lies outside that range. -/
theorem C2_counterexample :
    normalize_delta .none 500 = .ok 500 ∧ ¬ ((500:ℤ) ≤ 100) :=
  ⟨rfl, by decide⟩

theorem normalize_delta_ne_none (x : PyVal) (d : ℤ) (hne : x ≠ .none) :
    normalize_delta x d =
      match pyFloat x with
      | .err => .error (.valueError "El ajuste debe ser numérico.")
      | .nanVal => .error (.valueError "El ajuste no puede ser NaN.")
      | .ok q => .ok (max (-100) (min 100 (pyRound q))) := by
  cases x <;> first | rfl | exact absurd rfl hne


/-- Claim C2 amended: when `x` is `None` (absent), `normalizeDelta(x, d)`
returns the supplied default `d` as-is (unclamped); for every other input
the result is clamped into `[-100, 100]`, and non-numeric or NaN input
raises a Validation error. -/
theorem C2_normalize_delta_amended :
    (∀ d : ℤ, normalize_delta .none d = .ok d) ∧
    (∀ x d q, x ≠ .none → normalize_delta x d = .ok q → -100 ≤ q ∧ q ≤ 100) ∧
    (∀ x d, x ≠ .none → isInvalidInput x = true → isError (normalize_delta x d) = true) := by
  refine ⟨fun d => rfl, ?_, ?_⟩
  · intro x d q hne h
    rw [normalize_delta_ne_none x d hne] at h
    cases hx : pyFloat x <;> (rw [hx] at h; simp_all)
    subst h
    exact ⟨le_max_left _ _, max_le (by norm_num) (min_le_left _ _)⟩
  · intro x d hne hx
    unfold isError
    rw [normalize_delta_ne_none x d hne]
    unfold isInvalidInput at hx
    cases hp : pyFloat x <;> rw [hp] at hx <;> simp_all

theorem C2_witness : -100 ≤ (50:ℤ) ∧ (50:ℤ) ≤ 100 :=
  C2_normalize_delta_amended.2.1 (.num 50) 5 50 (by simp)
    (by simp [normalize_delta, pyFloat]
        rw [show ((50:ℚ)) = ((50:ℤ):ℚ) by norm_num, pyRound_intCast]
        decide)

/-- Claim C10: `volumeUp(None)` and `volumeDown(None)` use the built-in
default delta of 5: in every environment and every hardware state they
behave identically to `volumeUp(5)` and `volumeDown(5)` (same result, same
state, same trace) instead of raising a Validation error. -/
theorem C10_default_delta (env : Env) (st : HwState) :
    volume_up env st .none = volume_up env st (.num 5) ∧
    volume_down env st .none = volume_down env st (.num 5) := by
  have h5 : normalize_delta (.num 5) 5 = .ok 5 := by
    simp [normalize_delta, pyFloat]
    rw [show ((5:ℚ)) = ((5:ℤ):ℚ) by norm_num, pyRound_intCast]
    decide
  have h0 : normalize_delta PyVal.none 5 = Except.ok 5 := rfl
  constructor
  · unfold volume_up
    rw [h5, h0]
  · unfold volume_down
    rw [h5, h0]

theorem normalize_percent_invalid {x : PyVal} (hx : isInvalidInput x = true) :
    ∃ m, normalize_percent x = .error (.valueError m) := by
  unfold isInvalidInput at hx
  unfold normalize_percent
  cases h : pyFloat x <;> rw [h] at hx <;> simp_all

theorem normalize_delta_invalid {x : PyVal} (hx : isInvalidInput x = true)
    (hne : x ≠ .none) : ∃ m, normalize_delta x 5 = .error (.valueError m) := by
  unfold isInvalidInput at hx
  rw [normalize_delta_ne_none x 5 hne]
  cases h : pyFloat x <;> rw [h] at hx <;> simp_all

theorem set_volume_of_error (env : Env) (st : HwState) {x : PyVal} {e : PyErr}
    (h : normalize_percent x = .error e) : set_volume env st x = ⟨.error e, st, []⟩ := by
  unfold set_volume; rw [h]

theorem set_brightness_of_error (env : Env) (st : HwState) {x : PyVal} {e : PyErr}
    (h : normalize_percent x = .error e) : set_brightness env st x = ⟨.error e, st, []⟩ := by
  unfold set_brightness; rw [h]

theorem volume_up_of_error (env : Env) (st : HwState) {x : PyVal} {e : PyErr}
    (h : normalize_delta x 5 = .error e) : volume_up env st x = ⟨.error e, st, []⟩ := by
  unfold volume_up; rw [h]

theorem volume_down_of_error (env : Env) (st : HwState) {x : PyVal} {e : PyErr}
    (h : normalize_delta x 5 = .error e) : volume_down env st x = ⟨.error e, st, []⟩ := by
  unfold volume_down; rw [h]

theorem volume_up_of_nonpos (env : Env) (st : HwState) {x : PyVal} {a : ℤ}
    (h : normalize_delta x 5 = .ok a) (ha : a ≤ 0) :
    volume_up env st x =
      ⟨.error (.valueError "El incremento debe ser positivo."), st, []⟩ := by
  unfold volume_up; rw [h]; simp [ha]

theorem volume_down_of_nonpos (env : Env) (st : HwState) {x : PyVal} {a : ℤ}
    (h : normalize_delta x 5 = .ok a) (ha : a ≤ 0) :
    volume_down env st x =
      ⟨.error (.valueError "El decremento debe ser positivo."), st, []⟩ := by
  unfold volume_down; rw [h]; simp [ha]

/-- The operation was rejected during validation: error result, no events,
hardware state untouched. -/
def rejectedBeforeBackend {α : Type} (o : OpOut α) (st : HwState) : Prop :=
  isError o.result = true ∧ o.trace = [] ∧ o.state = st

theorem normalize_delta_num0 : normalize_delta (.num 0) 5 = .ok 0 := by
  simp [normalize_delta, pyFloat]
  rw [show ((0:ℚ)) = ((0:ℤ):ℚ) by norm_num, pyRound_intCast]
  decide

theorem normalize_delta_numNeg5 : normalize_delta (.num (-5)) 5 = .ok (-5) := by
  simp [normalize_delta, pyFloat]
  rw [show ((-5:ℚ)) = ((-5:ℤ):ℚ) by norm_num, pyRound_intCast]
  decide

/-- Claim C5: for every input that is non-numeric or NaN, and for every
non-positive delta where positive is required (for any delta input that
normalizes to `a ≤ 0`, and concretely `volumeUp(0)` and `volumeDown(-5)`),
the public operation raises a ValidationError before invoking any backend:
the result is an error, the event trace is empty (no lock, no helper, no
native call, no subprocess), and the hardware state is untouched.  (An
absent (`None`) delta is governed by the default rule, claim C10, and is
therefore excluded from the delta conjunct.) -/
theorem C5_validation_before_backend (env : Env) (st : HwState) (x : PyVal) :
    (isInvalidInput x = true →
      rejectedBeforeBackend (set_volume env st x) st ∧
      rejectedBeforeBackend (set_brightness env st x) st) ∧
    (isInvalidInput x = true → x ≠ .none →
      rejectedBeforeBackend (volume_up env st x) st ∧
      rejectedBeforeBackend (volume_down env st x) st) ∧
    (∀ a, normalize_delta x 5 = .ok a → a ≤ 0 →
      rejectedBeforeBackend (volume_up env st x) st ∧
      rejectedBeforeBackend (volume_down env st x) st) ∧
    rejectedBeforeBackend (volume_up env st (.num 0)) st ∧
    rejectedBeforeBackend (volume_down env st (.num (-5))) st := by
  refine ⟨?_, ?_, ?_, ?_, ?_⟩
  · intro hx
    obtain ⟨m, hm⟩ := normalize_percent_invalid hx
    rw [set_volume_of_error env st hm, set_brightness_of_error env st hm]
    exact ⟨⟨rfl, rfl, rfl⟩, ⟨rfl, rfl, rfl⟩⟩
  · intro hx hne
    obtain ⟨m, hm⟩ := normalize_delta_invalid hx hne
    rw [volume_up_of_error env st hm, volume_down_of_error env st hm]
    exact ⟨⟨rfl, rfl, rfl⟩, ⟨rfl, rfl, rfl⟩⟩
  · intro a ha hle
    rw [volume_up_of_nonpos env st ha hle, volume_down_of_nonpos env st ha hle]
    exact ⟨⟨rfl, rfl, rfl⟩, ⟨rfl, rfl, rfl⟩⟩
  · rw [volume_up_of_nonpos env st normalize_delta_num0 (by decide)]
    exact ⟨rfl, rfl, rfl⟩
  · rw [volume_down_of_nonpos env st normalize_delta_numNeg5 (by decide)]
    exact ⟨rfl, rfl, rfl⟩

theorem C5_witness :
    rejectedBeforeBackend (set_volume ⟨false⟩ ⟨0, false, false, 50⟩ (.str "abc"))
      ⟨0, false, false, 50⟩ ∧
    rejectedBeforeBackend (set_brightness ⟨false⟩ ⟨0, false, false, 50⟩ (.str "abc"))
      ⟨0, false, false, 50⟩ :=
  (C5_validation_before_backend ⟨false⟩ ⟨0, false, false, 50⟩ (.str "abc")).1 (by decide)

/-- Claim C3: `getVolume` reads the current volume through the native
interface path unconditionally — its trace is exactly one native COM read on
the render device, whatever the environment — while the mutating volume
operations (`setVolume`, `volumeUp`, `volumeDown`, mute/unmute) fall back to
the native interface path and still succeed when no helper executable is
discoverable (no helper event in their traces, native COM events instead),
and do use the external helper when one is discoverable. -/
theorem C3_backend_selection (env : Env) (st : HwState) (x : PyVal) :
    (get_volume env st).trace = [.comGetVolume EDATAFLOW_RENDER] ∧
    (get_volume env st).result = .ok (pyRound (st.volume * 100)) ∧
    (env.nircmd = false →
      (∀ v, normalize_percent x = .ok v →
        (set_volume env st x).result = .ok v ∧
        (set_volume env st x).trace.all (fun e => !(isHelperEvent e)) = true ∧
        Event.comSetVolume EDATAFLOW_RENDER (clamp01 ((v : ℚ) / 100)) ∈
          (set_volume env st x).trace) ∧
      (∀ a, normalize_delta x 5 = .ok a → 0 < a →
        (volume_up env st x).result =
          .ok (pyRound (clamp01 (st.volume + (a : ℚ) / 100) * 100)) ∧
        (volume_up env st x).trace.all (fun e => !(isHelperEvent e)) = true ∧
        Event.comSetVolume EDATAFLOW_RENDER (clamp01 (st.volume + (a : ℚ) / 100)) ∈
          (volume_up env st x).trace) ∧
      (∀ a, normalize_delta x 5 = .ok a → 0 < a →
        (volume_down env st x).result =
          .ok (pyRound (clamp01 (st.volume + (-a : ℚ) / 100) * 100)) ∧
        (volume_down env st x).trace.all (fun e => !(isHelperEvent e)) = true ∧
        Event.comSetVolume EDATAFLOW_RENDER (clamp01 (st.volume + (-a : ℚ) / 100)) ∈
          (volume_down env st x).trace) ∧
      (volume_mute env st).result = .ok () ∧
      (volume_mute env st).trace =
        [.acquireLock, .comSetMute EDATAFLOW_RENDER true, .releaseLock] ∧
      (volume_unmute env st).result = .ok () ∧
      (volume_unmute env st).trace =
        [.acquireLock, .comSetMute EDATAFLOW_RENDER false, .releaseLock]) ∧
    (env.nircmd = true →
      (∀ v, normalize_percent x = .ok v →
        (set_volume env st x).trace.any isHelperEvent = true) ∧
      (∀ a, normalize_delta x 5 = .ok a → 0 < a →
        (volume_up env st x).trace.any isHelperEvent = true ∧
        (volume_down env st x).trace.any isHelperEvent = true) ∧
      (volume_mute env st).trace.any isHelperEvent = true ∧
      (volume_unmute env st).trace.any isHelperEvent = true) := by
  refine ⟨rfl, rfl, fun hb => ⟨?_, ?_, ?_, ?_, ?_, ?_, ?_⟩, fun hb => ⟨?_, ?_, ?_, ?_⟩⟩
  · intro v hv
    unfold set_volume
    rw [hv]
    simp [hb, isHelperEvent]
  · intro a ha hpos
    unfold volume_up
    rw [ha]
    simp [hb, isHelperEvent, not_le.mpr hpos]
  · intro a ha hpos
    unfold volume_down
    rw [ha]
    simp [hb, isHelperEvent, not_le.mpr hpos]
  · unfold volume_mute; simp [hb]
  · unfold volume_mute; simp [hb]
  · unfold volume_unmute; simp [hb]
  · unfold volume_unmute; simp [hb]
  · intro v hv
    unfold set_volume
    rw [hv]
    simp [hb, isHelperEvent]
  · intro a ha hpos
    constructor
    · unfold volume_up
      rw [ha]
      simp [hb, isHelperEvent, not_le.mpr hpos]
    · unfold volume_down
      rw [ha]
      simp [hb, isHelperEvent, not_le.mpr hpos]
  · unfold volume_mute; simp [hb, isHelperEvent]
  · unfold volume_unmute; simp [hb, isHelperEvent]

theorem C3_witness :
    (set_volume ⟨false⟩ ⟨0, false, false, 50⟩ (.num 40)).result = .ok 40 ∧
    (set_volume ⟨false⟩ ⟨0, false, false, 50⟩ (.num 40)).trace.all
      (fun e => !(isHelperEvent e)) = true ∧
    Event.comSetVolume EDATAFLOW_RENDER (clamp01 (((40:ℤ) : ℚ) / 100)) ∈
      (set_volume ⟨false⟩ ⟨0, false, false, 50⟩ (.num 40)).trace :=
  ((C3_backend_selection ⟨false⟩ ⟨0, false, false, 50⟩ (.num 40)).2.2.1 rfl).1 40
    (by simp [normalize_percent, pyFloat]
        rw [show ((40:ℚ)) = ((40:ℤ):ℚ) by norm_num, pyRound_intCast]
        decide)

/-- Claim C7 amended: every mutating public operation (`setVolume`,
`setBrightness`, `volumeUp`, `volumeDown`, `volumeMute`, `volumeUnmute`,
`micMute`, `micUnmute`) executes under the single process-wide lock for the
whole of its OS-touching extent — its trace is either empty (rejected in
validation before the lock) or begins with the lock acquisition and ends
with the release.  The read operations `getVolume` and `getBrightness`,
however, do not take the lock (see the counterexample), so the original
claim that *every* public operation is serialized does not hold. -/
theorem C7_mutating_locked (env : Env) (st : HwState) (x : PyVal) :
    coveredByLock (set_volume env st x).trace = true ∧
    coveredByLock (set_brightness env st x).trace = true ∧
    coveredByLock (volume_up env st x).trace = true ∧
    coveredByLock (volume_down env st x).trace = true ∧
    coveredByLock (volume_mute env st).trace = true ∧
    coveredByLock (volume_unmute env st).trace = true ∧
    coveredByLock (mic_mute env st).trace = true ∧
    coveredByLock (mic_unmute env st).trace = true := by
  obtain ⟨b⟩ := env
  refine ⟨?_, ?_, ?_, ?_, ?_, ?_, ?_, ?_⟩
  · unfold set_volume
    cases normalize_percent x with
    | error e => rfl
    | ok v => cases b <;> rfl
  · unfold set_brightness
    cases normalize_percent x with
    | error e => rfl
    | ok v => cases b <;> rfl
  · unfold volume_up
    cases normalize_delta x 5 with
    | error e => rfl
    | ok a =>
        by_cases ha : a ≤ 0
        · simp [ha, coveredByLock]
        · cases b <;> simp [ha, coveredByLock]
  · unfold volume_down
    cases normalize_delta x 5 with
    | error e => rfl
    | ok a =>
        by_cases ha : a ≤ 0
        · simp [ha, coveredByLock]
        · cases b <;> simp [ha, coveredByLock]
  · unfold volume_mute; cases b <;> rfl
  · unfold volume_unmute; cases b <;> rfl
  · unfold mic_mute; cases b <;> rfl
  · unfold mic_unmute; cases b <;> rfl

/-- Claim C7 counterexample: `getVolume` performs its hardware read with no
lock acquisition at all — its trace contains an OS-boundary event yet is not
lock-bracketed — so a get can interleave with a concurrent set. -/
theorem C7_counterexample :
    coveredByLock (get_volume ⟨true⟩ ⟨0, false, false, 50⟩).trace = false ∧
    (get_volume ⟨true⟩ ⟨0, false, false, 50⟩).trace.any isHwEvent = true :=
  ⟨rfl, rfl⟩

/-- Claim C6: `getBrightness()` never raises (it is a total function into
an optional percent): when the scripting query exits non-zero or its output
does not parse as an integer it returns the absent result `none`, and
otherwise it returns the reported value. -/
theorem C6_get_brightness_total (r : SubprocResult) :
    (r.returncode ≠ 0 → get_brightness r = Option.none) ∧
    (parsePyInt r.stdout.toList = Option.none → get_brightness r = Option.none) ∧
    (∀ n, r.returncode = 0 → parsePyInt r.stdout.toList = Option.some n →
      get_brightness r = Option.some n) := by
  refine ⟨fun h => by simp [get_brightness, h], fun h => ?_, fun n h0 hp => ?_⟩
  · unfold get_brightness
    rw [h]
    split <;> rfl
  · unfold get_brightness
    rw [hp]
    simp [h0]

theorem C6_witness : get_brightness ⟨0, "75", ""⟩ = Option.some 75 :=
  (C6_get_brightness_total ⟨0, "75", ""⟩).2.2 75 rfl (by decide)

theorem clamp01_of_le_one {q : ℚ} (h0 : 0 ≤ q) (h1 : q ≤ 1) : clamp01 q = q := by
  unfold clamp01
  rw [min_eq_right h1, max_eq_right h0]

theorem clamp01_of_one_le {q : ℚ} (h : 1 ≤ q) : clamp01 q = 1 := by
  unfold clamp01
  rw [min_eq_left h]
  exact max_eq_right (by norm_num)

theorem step_nonneg {a : ℤ} (ha : 0 ≤ a) : 0 ≤ volume_percent_to_step a := by
  unfold volume_percent_to_step ratTrunc
  have hq : (0:ℚ) ≤ (a : ℚ) / 100 * 65535 := by positivity
  rw [if_pos hq]
  exact Int.floor_nonneg.mpr hq

theorem step_le {a : ℤ} (ha : 0 ≤ a) :
    (volume_percent_to_step a : ℚ) / 65535 ≤ (a : ℚ) / 100 := by
  unfold volume_percent_to_step ratTrunc
  have hq : (0:ℚ) ≤ (a : ℚ) / 100 * 65535 := by positivity
  rw [if_pos hq]
  have hfl : ((⌊(a : ℚ) / 100 * 65535⌋ : ℤ) : ℚ) ≤ (a : ℚ) / 100 * 65535 :=
    Int.floor_le _
  rw [div_le_iff₀ (by norm_num : (0:ℚ) < 65535)]
  calc ((⌊(a : ℚ) / 100 * 65535⌋ : ℤ) : ℚ) ≤ (a : ℚ) / 100 * 65535 := hfl

theorem normalize_delta_num5 : normalize_delta (.num 5) 5 = .ok 5 := by
  simp [normalize_delta, pyFloat]
  rw [show ((5:ℚ)) = ((5:ℤ):ℚ) by norm_num, pyRound_intCast]
  decide

theorem volume_up_native (st : HwState) {x : PyVal} {a : ℤ}
    (h : normalize_delta x 5 = .ok a) (hpos : 0 < a) :
    volume_up ⟨false⟩ st x =
      ⟨.ok (pyRound (clamp01 (st.volume + (a : ℚ) / 100) * 100)),
       { st with volume := clamp01 (st.volume + (a : ℚ) / 100) },
       [.acquireLock, .comGetVolume EDATAFLOW_RENDER,
        .comSetVolume EDATAFLOW_RENDER (clamp01 (st.volume + (a : ℚ) / 100)),
        .releaseLock]⟩ := by
  unfold volume_up
  rw [h]
  simp [not_le.mpr hpos]

theorem volume_down_native (st : HwState) {x : PyVal} {a : ℤ}
    (h : normalize_delta x 5 = .ok a) (hpos : 0 < a) :
    volume_down ⟨false⟩ st x =
      ⟨.ok (pyRound (clamp01 (st.volume + (-a : ℚ) / 100) * 100)),
       { st with volume := clamp01 (st.volume + (-a : ℚ) / 100) },
       [.acquireLock, .comGetVolume EDATAFLOW_RENDER,
        .comSetVolume EDATAFLOW_RENDER (clamp01 (st.volume + (-a : ℚ) / 100)),
        .releaseLock]⟩ := by
  unfold volume_down
  rw [h]
  simp [not_le.mpr hpos]

theorem volume_up_helper (st : HwState) {x : PyVal} {a : ℤ}
    (h : normalize_delta x 5 = .ok a) (hpos : 0 < a) :
    volume_up ⟨true⟩ st x =
      ⟨.ok (pyRound (clamp01 (st.volume + (volume_percent_to_step a : ℚ) / 65535) * 100)),
       { st with volume := clamp01 (st.volume + (volume_percent_to_step a : ℚ) / 65535) },
       [.acquireLock, .nircmdCmd ["changesysvolume", toString (volume_percent_to_step a)],
        .comGetVolume EDATAFLOW_RENDER, .releaseLock]⟩ := by
  unfold volume_up
  rw [h]
  simp [not_le.mpr hpos]

theorem volume_down_helper (st : HwState) {x : PyVal} {a : ℤ}
    (h : normalize_delta x 5 = .ok a) (hpos : 0 < a) :
    volume_down ⟨true⟩ st x =
      ⟨.ok (pyRound (clamp01 (st.volume + (-(volume_percent_to_step a) : ℚ) / 65535) * 100)),
       { st with volume := clamp01 (st.volume + (-(volume_percent_to_step a) : ℚ) / 65535) },
       [.acquireLock, .nircmdCmd ["changesysvolume", toString (-(volume_percent_to_step a))],
        .comGetVolume EDATAFLOW_RENDER, .releaseLock]⟩ := by
  unfold volume_down
  rw [h]
  simp [not_le.mpr hpos]

/-- Claim C4 counterexample: starting from volume scalar `0.98` with no
helper present, `volumeUp(5)` clamps at `1.0` and the following
`volumeDown(5)` lands on `0.95`, reporting `95`: three percentage points
below the pre-adjustment reading of `98`, outside the claimed 1-point
tolerance. -/
theorem C4_counterexample :
    (volume_down ⟨false⟩
        (volume_up ⟨false⟩ ⟨98/100, false, false, 50⟩ (.num 5)).state
        (.num 5)).state.volume = 19/20 ∧
    (volume_down ⟨false⟩
        (volume_up ⟨false⟩ ⟨98/100, false, false, 50⟩ (.num 5)).state
        (.num 5)).result = .ok 95 ∧
    pyRound ((98:ℚ)/100 * 100) = 98 ∧
    ¬ ((98 - 95 : ℤ) ≤ 1) := by
  have hup := volume_up_native ⟨98/100, false, false, 50⟩ normalize_delta_num5 (by decide)
  have hclamp1 : clamp01 ((98:ℚ)/100 + ((5:ℤ) : ℚ) / 100) = 1 :=
    clamp01_of_one_le (by push_cast; norm_num)
  rw [hup]
  have hdown := volume_down_native
    ({ volume := clamp01 ((98:ℚ)/100 + ((5:ℤ):ℚ)/100), muted := false,
       micMuted := false, brightness := 50 } : HwState)
    normalize_delta_num5 (by decide)
  rw [hdown]
  simp only []
  rw [hclamp1]
  have hclamp2 : clamp01 ((1:ℚ) + (-((5:ℤ) : ℚ)) / 100) = 19/20 := by
    rw [show ((1:ℚ) + (-((5:ℤ) : ℚ)) / 100) = 19/20 by push_cast; norm_num]
    exact clamp01_of_le_one (by norm_num) (by norm_num)
  rw [hclamp2]
  refine ⟨rfl, ?_, ?_, by decide⟩
  · rw [show ((19:ℚ)/20 * 100) = ((95:ℤ):ℚ) by norm_num, pyRound_intCast]
  · rw [show ((98:ℚ)/100 * 100) = ((98:ℤ):ℚ) by norm_num, pyRound_intCast]

/-- Claim C4 amended: for every valid positive delta and every starting
volume for which the upward adjustment does not clamp at 100%
(`volume + delta/100 ≤ 1`, with `volume ≥ 0`), `volumeUp(d)` followed
immediately by `volumeDown(d)` restores the hardware volume exactly, and the
value `volumeDown` returns equals the pre-adjustment percent reading — in
particular within the 1-point tolerance the claim states.  This holds on
both the helper path and the native path. -/
theorem C4_roundtrip_amended (env : Env) (st : HwState) (x : PyVal) (a : ℤ)
    (h1 : normalize_delta x 5 = .ok a) (h2 : 0 < a)
    (h3 : 0 ≤ st.volume) (h4 : st.volume + (a : ℚ) / 100 ≤ 1) :
    (volume_down env (volume_up env st x).state x).state.volume = st.volume ∧
    (volume_down env (volume_up env st x).state x).result =
      .ok (pyRound (st.volume * 100)) := by
  have ha1 : (1:ℚ) ≤ (a:ℚ) := by exact_mod_cast h2
  have hvle1 : st.volume ≤ 1 := by linarith
  obtain ⟨b⟩ := env
  cases b
  case false =>
    rw [volume_up_native st h1 h2]
    have hc1 : clamp01 (st.volume + (a:ℚ)/100) = st.volume + (a:ℚ)/100 :=
      clamp01_of_le_one (by linarith) h4
    rw [volume_down_native _ h1 h2]
    simp only []
    rw [hc1]
    have hc2 : clamp01 (st.volume + (a:ℚ)/100 + -(a:ℚ)/100) = st.volume := by
      rw [show st.volume + (a:ℚ)/100 + -(a:ℚ)/100 = st.volume by ring]
      exact clamp01_of_le_one h3 hvle1
    rw [hc2]
    exact ⟨rfl, rfl⟩
  case true =>
    rw [volume_up_helper st h1 h2]
    have hs0 : (0:ℚ) ≤ (volume_percent_to_step a : ℚ) := by
      exact_mod_cast step_nonneg h2.le
    have hsle := step_le (a := a) h2.le
    have hs0' : (0:ℚ) ≤ (volume_percent_to_step a : ℚ) / 65535 :=
      div_nonneg hs0 (by norm_num)
    have hc1 : clamp01 (st.volume + (volume_percent_to_step a : ℚ)/65535)
        = st.volume + (volume_percent_to_step a : ℚ)/65535 :=
      clamp01_of_le_one (by linarith) (by linarith)
    rw [volume_down_helper _ h1 h2]
    simp only []
    rw [hc1]
    have hc2 : clamp01 (st.volume + (volume_percent_to_step a : ℚ)/65535 +
        -(volume_percent_to_step a : ℚ)/65535) = st.volume := by
      rw [show st.volume + (volume_percent_to_step a : ℚ)/65535 +
            -(volume_percent_to_step a : ℚ)/65535 = st.volume by ring]
      exact clamp01_of_le_one h3 hvle1
    rw [hc2]
    exact ⟨rfl, rfl⟩

theorem C4_witness :
    (volume_down ⟨false⟩
        (volume_up ⟨false⟩ ⟨1/2, false, false, 50⟩ (.num 5)).state
        (.num 5)).state.volume = 1/2 ∧
    (volume_down ⟨false⟩
        (volume_up ⟨false⟩ ⟨1/2, false, false, 50⟩ (.num 5)).state
        (.num 5)).result = .ok (pyRound ((1/2 : ℚ) * 100)) :=
  C4_roundtrip_amended ⟨false⟩ ⟨1/2, false, false, 50⟩ (.num 5) 5
    normalize_delta_num5 (by decide) (by norm_num)
    (by show (1/2:ℚ) + ((5:ℤ):ℚ)/100 ≤ 1
        push_cast
        norm_num)


theorem wae_trace_init_fail {env : ComEnv} (h : ¬ initProceeds env) :
    (with_audio_endpoint env).2 = [.coInit] := by
  unfold initProceeds at h
  unfold with_audio_endpoint
  rw [if_neg h]

theorem wae_trace_create_fail {env : ComEnv} (h : initProceeds env)
    (h2 : ¬ succeeded env.hrCreate) :
    (with_audio_endpoint env).2 =
      [.coInit, .coCreateInstance] ++ uninitTail env := by
  unfold initProceeds at h
  unfold with_audio_endpoint
  rw [if_pos h, if_neg h2]

theorem wae_trace_device_fail {env : ComEnv} (h : initProceeds env)
    (h2 : succeeded env.hrCreate) (h3 : ¬ succeeded env.hrGetDefault) :
    (with_audio_endpoint env).2 =
      [.coInit, .coCreateInstance, .getDefaultEndpoint,
       .releaseEnumerator] ++ uninitTail env := by
  unfold initProceeds at h
  unfold with_audio_endpoint
  rw [if_pos h, if_pos h2, if_neg h3]

theorem wae_trace_activate_fail {env : ComEnv} (h : initProceeds env)
    (h2 : succeeded env.hrCreate) (h3 : succeeded env.hrGetDefault)
    (h4 : ¬ succeeded env.hrActivate) :
    (with_audio_endpoint env).2 =
      [.coInit, .coCreateInstance, .getDefaultEndpoint, .activate,
       .releaseDevice, .releaseEnumerator] ++ uninitTail env := by
  unfold initProceeds at h
  unfold with_audio_endpoint
  rw [if_pos h, if_pos h2, if_pos h3, if_neg h4]

theorem wae_trace_full {env : ComEnv} (h : initProceeds env)
    (h2 : succeeded env.hrCreate) (h3 : succeeded env.hrGetDefault)
    (h4 : succeeded env.hrActivate) :
    (with_audio_endpoint env).2 =
      [.coInit, .coCreateInstance, .getDefaultEndpoint, .activate,
       .callbackRun, .releaseEndpoint, .releaseDevice,
       .releaseEnumerator] ++ uninitTail env := by
  unfold initProceeds at h
  unfold with_audio_endpoint
  rw [if_pos h, if_pos h2, if_pos h3, if_pos h4]
  cases env.cbResult <;> rfl

/-- Claim C8: on every execution path of `_with_audio_endpoint` — success,
early return on a failed status code, or exception from a later step — each
COM handle acquired during the call (enumerator, device, endpoint-volume
interface) is released exactly once before the function returns, and a
handle that was never acquired is never released. -/
theorem C8_handles_released_exactly_once (env : ComEnv) :
    (with_audio_endpoint env).2.count ComEvent.releaseEnumerator =
      (if enumAcquired env then 1 else 0) ∧
    (with_audio_endpoint env).2.count ComEvent.releaseDevice =
      (if deviceAcquired env then 1 else 0) ∧
    (with_audio_endpoint env).2.count ComEvent.releaseEndpoint =
      (if endpointAcquired env then 1 else 0) := by
  by_cases hI : initProceeds env
  · by_cases hC : succeeded env.hrCreate
    · have e1 : enumAcquired env := ⟨hI, hC⟩
      by_cases hG : succeeded env.hrGetDefault
      · have e2 : deviceAcquired env := ⟨e1, hG⟩
        by_cases hA : succeeded env.hrActivate
        · have e3 : endpointAcquired env := ⟨e2, hA⟩
          rw [wae_trace_full hI hC hG hA, if_pos e1, if_pos e2, if_pos e3]
          refine ⟨?_, ?_, ?_⟩ <;> (unfold uninitTail; split <;> rfl)
        · have n3 : ¬ endpointAcquired env := fun h => hA h.2
          rw [wae_trace_activate_fail hI hC hG hA, if_pos e1, if_pos e2, if_neg n3]
          refine ⟨?_, ?_, ?_⟩ <;> (unfold uninitTail; split <;> rfl)
      · have n2 : ¬ deviceAcquired env := fun h => hG h.2
        have n3 : ¬ endpointAcquired env := fun h => hG h.1.2
        rw [wae_trace_device_fail hI hC hG, if_pos e1, if_neg n2, if_neg n3]
        refine ⟨?_, ?_, ?_⟩ <;> (unfold uninitTail; split <;> rfl)
    · have n1 : ¬ enumAcquired env := fun h => hC h.2
      have n2 : ¬ deviceAcquired env := fun h => hC h.1.2
      have n3 : ¬ endpointAcquired env := fun h => hC h.1.1.2
      rw [wae_trace_create_fail hI hC, if_neg n1, if_neg n2, if_neg n3]
      refine ⟨?_, ?_, ?_⟩ <;> (unfold uninitTail; split <;> rfl)
  · have n1 : ¬ enumAcquired env := fun h => hI h.1
    have n2 : ¬ deviceAcquired env := fun h => hI h.1.1
    have n3 : ¬ endpointAcquired env := fun h => hI h.1.1.1
    rw [wae_trace_init_fail hI, if_neg n1, if_neg n2, if_neg n3]
    exact ⟨rfl, rfl, rfl⟩

/-- Claim C9: the apartment lifecycle guard runs its `CoUninitialize`
teardown exactly once on every exit path when this call performed the
initialization itself (`CoInitializeEx` returned `S_OK` or `S_FALSE`, both
of which obligate a balancing teardown under COM reference counting), and
never otherwise — in particular not when the call merely reused a context
initialized in a different mode (`RPC_E_CHANGED_MODE`) and not when
initialization failed. -/
theorem C9_uninit_iff_this_call_initialized (env : ComEnv) :
    (with_audio_endpoint env).2.count ComEvent.coUninit =
      (if env.hrInit = 0 ∨ env.hrInit = 1 then 1 else 0) := by
  have htail : (uninitTail env).count ComEvent.coUninit =
      (if env.hrInit = 0 ∨ env.hrInit = 1 then 1 else 0) := by
    unfold uninitTail; split <;> rfl
  by_cases hI : initProceeds env
  · by_cases hC : succeeded env.hrCreate
    · by_cases hG : succeeded env.hrGetDefault
      · by_cases hA : succeeded env.hrActivate
        · rw [wae_trace_full hI hC hG hA, List.count_append, htail]
          simp [List.count_cons, List.count_nil]
        · rw [wae_trace_activate_fail hI hC hG hA, List.count_append, htail]
          simp [List.count_cons, List.count_nil]
      · rw [wae_trace_device_fail hI hC hG, List.count_append, htail]
        simp [List.count_cons, List.count_nil]
    · rw [wae_trace_create_fail hI hC, List.count_append, htail]
      simp [List.count_cons, List.count_nil]
  · rw [wae_trace_init_fail hI]
    have h01 : ¬ (env.hrInit = 0 ∨ env.hrInit = 1) := fun h => hI (h.imp id Or.inl)
    rw [if_neg h01]
    rfl
